import Mathlib

/-!
Shallow embedding of the WebGL fluid simulation (`script.js`) over exact
rationals.  Field values live in ℚ; the transcendental GLSL built-ins
`exp` and `sqrt` are passed in as explicit function parameters so that
every definition stays computable and the algebraic structure of each
shader is preserved literally.

Grids model the float textures: a width, a height, and a cell function.
Texture sampling uses CLAMP_TO_EDGE exactly as the textures are
configured in `createFBO`.  Each fragment shader becomes a per-cell
function translated line by line from its GLSL source, and the host-side
orchestration (`step`, `splat`, `applyInputs`, `update`,
`initFramebuffers`) becomes explicit state passing over a simulation
state record, emitting a trace of pass/swap events where the claims are
about ordering.
-/

/-- A 2-component cell value (velocity texel: the `.xy` channels). -/
structure Vec2 where
  x : ℚ
  y : ℚ
deriving DecidableEq

/-- A 3-component cell value (dye texel / splat color: the `.xyz` channels). -/
structure Vec3 where
  r : ℚ
  g : ℚ
  b : ℚ
deriving DecidableEq

instance : Add Vec2 := ⟨fun a b => ⟨a.x + b.x, a.y + b.y⟩⟩
instance : Add Vec3 := ⟨fun a b => ⟨a.r + b.r, a.g + b.g, a.b + b.b⟩⟩
instance : SMul ℚ Vec2 := ⟨fun t a => ⟨t * a.x, t * a.y⟩⟩
instance : SMul ℚ Vec3 := ⟨fun t a => ⟨t * a.r, t * a.g, t * a.b⟩⟩

/-- A grid field: one renderable texture of `width × height` texels. -/
structure Grid (α : Type) where
  width : ℕ
  height : ℕ
  data : ℕ → ℕ → α

/-- CLAMP_TO_EDGE behaviour of an integer texel index against extent `n`. -/
def clampIdx (n : ℕ) (i : ℤ) : ℕ :=
  (max 0 (min i ((n : ℤ) - 1))).toNat

/-- Fetch the texel at (possibly out of range) integer index `(i, j)`,
with CLAMP_TO_EDGE as configured on every texture in `createFBO`. -/
def Grid.sampleI {α : Type} (gr : Grid α) (i j : ℤ) : α :=
  gr.data (clampIdx gr.width i) (clampIdx gr.height j)

/-- A double-buffered field: the `read`/`write` texture pair of
`createDoubleFBO`. -/
structure DoubleBuf (α : Type) where
  readBuf : Grid α
  writeBuf : Grid α

/-- Source `swap()` from `createDoubleFBO`: exchange the read and write slots. -/
def DoubleBuf.swap {α : Type} (b : DoubleBuf α) : DoubleBuf α :=
  ⟨b.writeBuf, b.readBuf⟩

/-- Render a full-grid pass result into the write slot (`blit(target.write.fbo)`). -/
def DoubleBuf.blitWrite {α : Type} (b : DoubleBuf α) (g : Grid α) : DoubleBuf α :=
  ⟨b.readBuf, g⟩

/-- The mutable configuration object `config`, restricted to the fields
the simulation core reads, plus the canvas extent that `splat` and
`correctRadius` consult through `canvas.width / canvas.height`. -/
structure Config where
  SIM_RESOLUTION : ℚ
  DYE_RESOLUTION : ℚ
  DENSITY_DISSIPATION : ℚ
  VELOCITY_DISSIPATION : ℚ
  PRESSURE : ℚ
  PRESSURE_ITERATIONS : ℕ
  CURL : ℚ
  SPLAT_RADIUS : ℚ
  SPLAT_FORCE : ℚ
  COLORFUL : Bool
  COLOR_UPDATE_SPEED : ℚ
  PAUSED : Bool
  canvasW : ℚ
  canvasH : ℚ

/-! Section: Per-cell shader translations

Each shader runs once per output texel `(x, y)`; the varying `vUv` is
the texel center `((x + 1/2)/w, (y + 1/2)/h)` and `vL`, `vR`, `vT`, `vB`
are `vUv` offset by one texel, so in-range neighbour fetches hit the
texels at `(x ± 1, y)` and `(x, y ± 1)` exactly. -/

/-- Source `curlShader`: `0.5 * (R.y - L.y - T.x + B.x)` from the four velocity
neighbours. -/
def curlCell (v : Grid Vec2) (x y : ℕ) : ℚ :=
  let L := (v.sampleI ((x : ℤ) - 1) (y : ℤ)).y
  let R := (v.sampleI ((x : ℤ) + 1) (y : ℤ)).y
  let T := (v.sampleI (x : ℤ) ((y : ℤ) + 1)).x
  let B := (v.sampleI (x : ℤ) ((y : ℤ) - 1)).x
  let vorticity := R - L - T + B
  0.5 * vorticity

def curlPass (v : Grid Vec2) : Grid ℚ :=
  ⟨v.width, v.height, fun x y => curlCell v x y⟩

/-- Source `length(force)` in `vorticityShader`, with the GLSL `sqrt` built-in
passed in as the parameter `sq`. -/
def lengthV (sq : ℚ → ℚ) (fx fy : ℚ) : ℚ :=
  sq (fx * fx + fy * fy)

/-- The un-normalized force of `vorticityShader`:
`0.5 * vec2(abs(T) - abs(B), abs(R) - abs(L))` over the curl texture. -/
def vortForceRaw (c : Grid ℚ) (x y : ℕ) : Vec2 :=
  let L := c.sampleI ((x : ℤ) - 1) (y : ℤ)
  let R := c.sampleI ((x : ℤ) + 1) (y : ℤ)
  let T := c.sampleI (x : ℤ) ((y : ℤ) + 1)
  let B := c.sampleI (x : ℤ) ((y : ℤ) - 1)
  ⟨0.5 * (|T| - |B|), 0.5 * (|R| - |L|)⟩

/-- The denominator `length(force) + 0.0001` that `vorticityShader`
divides the force by. -/
def vortDenom (sq : ℚ → ℚ) (c : Grid ℚ) (x y : ℕ) : ℚ :=
  lengthV sq (vortForceRaw c x y).x (vortForceRaw c x y).y + 0.0001

/-- Source `vorticityShader`: soft-normalize the force, scale by
`curl * C`, flip the y component, and integrate into velocity. -/
def vorticityCell (sq : ℚ → ℚ) (v : Grid Vec2) (c : Grid ℚ)
    (curlStrength dt : ℚ) (x y : ℕ) : Vec2 :=
  let C := c.sampleI (x : ℤ) (y : ℤ)
  let force0 := vortForceRaw c x y
  let force1 : Vec2 := ⟨force0.x / vortDenom sq c x y, force0.y / vortDenom sq c x y⟩
  let force2 : Vec2 := ⟨force1.x * (curlStrength * C), force1.y * (curlStrength * C)⟩
  let force3 : Vec2 := ⟨force2.x, force2.y * (-1)⟩
  let vel := v.sampleI (x : ℤ) (y : ℤ)
  ⟨vel.x + force3.x * dt, vel.y + force3.y * dt⟩

def vorticityPass (sq : ℚ → ℚ) (v : Grid Vec2) (c : Grid ℚ)
    (curlStrength dt : ℚ) : Grid Vec2 :=
  ⟨v.width, v.height, fun x y => vorticityCell sq v c curlStrength dt x y⟩

/-- Source `divergenceShader`, translated literally: the boundary conditions
test the varying coordinates `vL.x < 0`, `vR.x > 1`, `vT.y > 1`,
`vB.y < 0` exactly as the GLSL does. -/
def divergenceCell (v : Grid Vec2) (x y : ℕ) : ℚ :=
  let w : ℚ := v.width
  let h : ℚ := v.height
  let uvx : ℚ := ((x : ℚ) + 1/2) / w
  let uvy : ℚ := ((y : ℚ) + 1/2) / h
  let L0 := (v.sampleI ((x : ℤ) - 1) (y : ℤ)).x
  let R0 := (v.sampleI ((x : ℤ) + 1) (y : ℤ)).x
  let T0 := (v.sampleI (x : ℤ) ((y : ℤ) + 1)).y
  let B0 := (v.sampleI (x : ℤ) ((y : ℤ) - 1)).y
  let C := v.sampleI (x : ℤ) (y : ℤ)
  let L := if uvx - 1/w < 0 then -C.x else L0
  let R := if 1 < uvx + 1/w then -C.x else R0
  let T := if 1 < uvy + 1/h then -C.y else T0
  let B := if uvy - 1/h < 0 then -C.y else B0
  0.5 * (R - L + T - B)

def divergencePass (v : Grid Vec2) : Grid ℚ :=
  ⟨v.width, v.height, fun x y => divergenceCell v x y⟩

/-- Source `clearShader`: `value * texture2D(uTexture, vUv)` — seeds the next
relaxation with the decayed previous pressure. -/
def clearPass (value : ℚ) (p : Grid ℚ) : Grid ℚ :=
  ⟨p.width, p.height, fun x y => value * p.sampleI (x : ℤ) (y : ℤ)⟩

/-- Source `pressureShader`: one Jacobi relaxation step per cell,
`(L + R + B + T - divergence) * 0.25`. -/
def jacobiCell (dv p : Grid ℚ) (x y : ℕ) : ℚ :=
  let L := p.sampleI ((x : ℤ) - 1) (y : ℤ)
  let R := p.sampleI ((x : ℤ) + 1) (y : ℤ)
  let T := p.sampleI (x : ℤ) ((y : ℤ) + 1)
  let B := p.sampleI (x : ℤ) ((y : ℤ) - 1)
  let divergence := dv.sampleI (x : ℤ) (y : ℤ)
  (L + R + B + T - divergence) * 0.25

def jacobiPass (dv p : Grid ℚ) : Grid ℚ :=
  ⟨p.width, p.height, fun x y => jacobiCell dv p x y⟩

/-- Source `gradientSubtractShader`: `velocity -= vec2(R - L, T - B)` of pressure. -/
def gradientSubtractCell (p : Grid ℚ) (v : Grid Vec2) (x y : ℕ) : Vec2 :=
  let L := p.sampleI ((x : ℤ) - 1) (y : ℤ)
  let R := p.sampleI ((x : ℤ) + 1) (y : ℤ)
  let T := p.sampleI (x : ℤ) ((y : ℤ) + 1)
  let B := p.sampleI (x : ℤ) ((y : ℤ) - 1)
  let velocity := v.sampleI (x : ℤ) (y : ℤ)
  ⟨velocity.x - (R - L), velocity.y - (T - B)⟩

def gradientSubtractPass (p : Grid ℚ) (v : Grid Vec2) : Grid Vec2 :=
  ⟨v.width, v.height, fun x y => gradientSubtractCell p v x y⟩

/-! Section: Advection (`advectionShader`)

The GLSL `bilerp` helper fetches the four surrounding texel centers and
mixes them; `mix(x, y, a) = x * (1 - a) + y * a` is the GLSL built-in. -/

def mixQ (a b t : ℚ) : ℚ := a * (1 - t) + b * t

def mixV2 (a b : Vec2) (t : ℚ) : Vec2 := ⟨mixQ a.x b.x t, mixQ a.y b.y t⟩

def mixV3 (a b : Vec3) (t : ℚ) : Vec3 :=
  ⟨mixQ a.r b.r t, mixQ a.g b.g t, mixQ a.b b.b t⟩

/-- Source `bilerp` from `advectionShader` on a 2-vector texture, sampling at
uv coordinate `(ux, uy)` with the own texel size of the texture. -/
def bilerpV (gr : Grid Vec2) (ux uy : ℚ) : Vec2 :=
  let stx : ℚ := ux / (1 / (gr.width : ℚ)) - 0.5
  let sty : ℚ := uy / (1 / (gr.height : ℚ)) - 0.5
  let ix : ℤ := ⌊stx⌋
  let iy : ℤ := ⌊sty⌋
  let fx : ℚ := stx - ix
  let fy : ℚ := sty - iy
  let a := gr.sampleI ix iy
  let b := gr.sampleI (ix + 1) iy
  let c := gr.sampleI ix (iy + 1)
  let d := gr.sampleI (ix + 1) (iy + 1)
  mixV2 (mixV2 a b fx) (mixV2 c d fx) fy

/-- Source `bilerp` on a 3-vector (dye) texture. -/
def bilerpD (gr : Grid Vec3) (ux uy : ℚ) : Vec3 :=
  let stx : ℚ := ux / (1 / (gr.width : ℚ)) - 0.5
  let sty : ℚ := uy / (1 / (gr.height : ℚ)) - 0.5
  let ix : ℤ := ⌊stx⌋
  let iy : ℤ := ⌊sty⌋
  let fx : ℚ := stx - ix
  let fy : ℚ := sty - iy
  let a := gr.sampleI ix iy
  let b := gr.sampleI (ix + 1) iy
  let c := gr.sampleI ix (iy + 1)
  let d := gr.sampleI (ix + 1) (iy + 1)
  mixV3 (mixV3 a b fx) (mixV3 c d fx) fy

/-- The backward-traced coordinate of `advectionShader`:
`coord = vUv - dt * bilerp(uVelocity, vUv, texelSize).xy * texelSize`. -/
def advectCoord (v : Grid Vec2) (dt ux uy : ℚ) : ℚ × ℚ :=
  let vel := bilerpV v ux uy
  (ux - dt * vel.x * (1 / (v.width : ℚ)), uy - dt * vel.y * (1 / (v.height : ℚ)))

/-- Source `advectionShader` for the velocity self-advection call in `step`:
source = transporting field = velocity, `dissipation =
config.VELOCITY_DISSIPATION`, output at simulation resolution. -/
def advectVelCell (v : Grid Vec2) (dt dissipation : ℚ) (x y : ℕ) : Vec2 :=
  let ux : ℚ := ((x : ℚ) + 1/2) / (v.width : ℚ)
  let uy : ℚ := ((y : ℚ) + 1/2) / (v.height : ℚ)
  let coord := advectCoord v dt ux uy
  dissipation • bilerpV v coord.1 coord.2

def advectVelPass (v : Grid Vec2) (dt dissipation : ℚ) : Grid Vec2 :=
  ⟨v.width, v.height, fun x y => advectVelCell v dt dissipation x y⟩

/-- Source `advectionShader` for the dye advection call in `step`: output cell
of the dye grid, transporting velocity sampled with the velocity texel
size, source resampled with the dye texel size,
`dissipation = config.DENSITY_DISSIPATION`. -/
def advectDyeCell (v : Grid Vec2) (d : Grid Vec3) (dt dissipation : ℚ)
    (x y : ℕ) : Vec3 :=
  let ux : ℚ := ((x : ℚ) + 1/2) / (d.width : ℚ)
  let uy : ℚ := ((y : ℚ) + 1/2) / (d.height : ℚ)
  let coord := advectCoord v dt ux uy
  dissipation • bilerpD d coord.1 coord.2

def advectDyePass (v : Grid Vec2) (d : Grid Vec3) (dt dissipation : ℚ) : Grid Vec3 :=
  ⟨d.width, d.height, fun x y => advectDyeCell v d dt dissipation x y⟩

/-! Section: Splat (`splatShader`, `splat`, `correctRadius`) -/

/-- The Gaussian weight computed by `splatShader` at uv `(ux, uy)` for a
splat centered at `(px, py)`: `exp(-dot(p, p) / radius)` after
`p.x *= aspectRatio`.  The GLSL `exp` built-in is the parameter `expF`. -/
def splatGauss (expF : ℚ → ℚ) (aspect px py radius ux uy : ℚ) : ℚ :=
  let pdx := (ux - px) * aspect
  let pdy := uy - py
  expF (-(pdx * pdx + pdy * pdy) / radius)

/-- Source `splatShader` applied to the velocity target with
`color = vec3(dx, dy, 0)`. -/
def splatPassV (expF : ℚ → ℚ) (aspect px py radius dx dy : ℚ)
    (v : Grid Vec2) : Grid Vec2 :=
  ⟨v.width, v.height, fun i j =>
    let ux : ℚ := ((i : ℚ) + 1/2) / (v.width : ℚ)
    let uy : ℚ := ((j : ℚ) + 1/2) / (v.height : ℚ)
    v.data i j + splatGauss expF aspect px py radius ux uy • (⟨dx, dy⟩ : Vec2)⟩

/-- Source `splatShader` applied to the dye target with the splat color. -/
def splatPassD (expF : ℚ → ℚ) (aspect px py radius : ℚ) (color : Vec3)
    (d : Grid Vec3) : Grid Vec3 :=
  ⟨d.width, d.height, fun i j =>
    let ux : ℚ := ((i : ℚ) + 1/2) / (d.width : ℚ)
    let uy : ℚ := ((j : ℚ) + 1/2) / (d.height : ℚ)
    d.data i j + splatGauss expF aspect px py radius ux uy • color⟩

/-- Source `correctRadius`: scale the radius by the aspect ratio when the
canvas is wider than tall. -/
def correctRadius (aspect radius : ℚ) : ℚ :=
  if 1 < aspect then radius * aspect else radius

/-! Section: Simulation state and the step orchestrator -/

/-- The simulation fields owned by the step orchestrator. -/
structure SimState where
  velocity : DoubleBuf Vec2
  dye : DoubleBuf Vec3
  pressure : DoubleBuf ℚ
  divergence : Grid ℚ
  curl : Grid ℚ

/-- Source `splat(x, y, dx, dy, color)`: one splat pass into velocity followed
by a velocity swap, then one splat pass into dye followed by a dye swap. -/
def splat (expF : ℚ → ℚ) (cfg : Config) (px py dx dy : ℚ) (color : Vec3)
    (s : SimState) : SimState :=
  let aspect := cfg.canvasW / cfg.canvasH
  let radius := correctRadius aspect (cfg.SPLAT_RADIUS / 100)
  let vel := (s.velocity.blitWrite
    (splatPassV expF aspect px py radius dx dy s.velocity.readBuf)).swap
  let dy2 := (s.dye.blitWrite
    (splatPassD expF aspect px py radius color s.dye.readBuf)).swap
  { s with velocity := vel, dye := dy2 }

/-- Trace events: one per program dispatch (`blit`) and one per
double-buffer `swap()` inside `step`. -/
inductive Pass
  | curl
  | vorticity
  | divergence
  | clearPressure
  | pressureRelax
  | gradientSubtract
  | advectVelocity
  | advectDye
deriving DecidableEq

inductive Ev
  | pass : Pass → Ev
  | swapVelocity
  | swapPressure
  | swapDye
deriving DecidableEq

/-- The pressure relaxation loop of `step`:
`for i in 0..N-1 { bind pressure.read; blit(pressure.write); swap }`. -/
def pressureLoopGo (dv : Grid ℚ) : ℕ → DoubleBuf ℚ → List Ev → DoubleBuf ℚ × List Ev
  | 0, p, tr => (p, tr)
  | Nat.succ k, p, tr =>
      let p2 := (p.blitWrite (jacobiPass dv p.readBuf)).swap
      pressureLoopGo dv k p2 (tr ++ [Ev.pass Pass.pressureRelax, Ev.swapPressure])

/-- Source `step(dt)`: the per-tick pass sequence, translated dispatch by
dispatch from the source, together with the emitted event trace. -/
def step (sq : ℚ → ℚ) (cfg : Config) (dt : ℚ) (s : SimState) :
    SimState × List Ev :=
  -- curl program: velocity.read → curl
  let curl1 := curlPass s.velocity.readBuf
  let tr := [Ev.pass Pass.curl]
  -- vorticity program: velocity.read, curl → velocity.write; swap
  let vel1 := (s.velocity.blitWrite
    (vorticityPass sq s.velocity.readBuf curl1 cfg.CURL dt)).swap
  let tr := tr ++ [Ev.pass Pass.vorticity, Ev.swapVelocity]
  -- divergence program: velocity.read → divergence
  let div1 := divergencePass vel1.readBuf
  let tr := tr ++ [Ev.pass Pass.divergence]
  -- clear program: pressure.read * config.PRESSURE → pressure.write; swap
  let pres1 := (s.pressure.blitWrite (clearPass cfg.PRESSURE s.pressure.readBuf)).swap
  let tr := tr ++ [Ev.pass Pass.clearPressure, Ev.swapPressure]
  -- pressure program, PRESSURE_ITERATIONS times, swapping after each
  let pl := pressureLoopGo div1 cfg.PRESSURE_ITERATIONS pres1 tr
  let pres2 := pl.1
  let tr := pl.2
  -- gradient subtract program: pressure.read, velocity.read → velocity.write; swap
  let vel2 := (vel1.blitWrite (gradientSubtractPass pres2.readBuf vel1.readBuf)).swap
  let tr := tr ++ [Ev.pass Pass.gradientSubtract, Ev.swapVelocity]
  -- advection program: velocity by itself → velocity.write; swap
  let vel3 := (vel2.blitWrite
    (advectVelPass vel2.readBuf dt cfg.VELOCITY_DISSIPATION)).swap
  let tr := tr ++ [Ev.pass Pass.advectVelocity, Ev.swapVelocity]
  -- advection program: dye by velocity → dye.write; swap
  let dye1 := (s.dye.blitWrite
    (advectDyePass vel3.readBuf s.dye.readBuf dt cfg.DENSITY_DISSIPATION)).swap
  let tr := tr ++ [Ev.pass Pass.advectDye, Ev.swapDye]
  (⟨vel3, dye1, pres2, div1, curl1⟩, tr)

/-! Section: Framebuffer allocation and resolution management -/

/-- Source `createFBO`: freshly allocated storage; `gl.clear` with the global
clear color `(0, 0, 0, 1)` zero-initializes every channel a field reads. -/
def createFBO (α : Type) (w h : ℕ) (zero : α) : Grid α :=
  ⟨w, h, fun _ _ => zero⟩

/-- Source `createDoubleFBO`: two fresh zero-initialized FBOs. -/
def createDoubleFBO (α : Type) (w h : ℕ) (zero : α) : DoubleBuf α :=
  ⟨createFBO α w h zero, createFBO α w h zero⟩

/-- Source `resizeDoubleFBO`: both slots of the old target are replaced with
freshly created (zero) FBOs — the old content is never copied over. -/
def resizeDoubleFBO (α : Type) (_target : DoubleBuf α) (w h : ℕ) (zero : α) :
    DoubleBuf α :=
  ⟨createFBO α w h zero, createFBO α w h zero⟩

/-- JavaScript `Math.round` on a (non-negative) rational. -/
def jsRound (q : ℚ) : ℕ := (⌊q + 1/2⌋).toNat

/-- Source `getResolution(resolution)`: derive a grid extent from a target
resolution and the drawing-buffer aspect ratio. -/
def getResolution (cfg : Config) (resolution : ℚ) : ℕ × ℕ :=
  let aspectRatio0 := cfg.canvasW / cfg.canvasH
  let aspectRatio := if aspectRatio0 < 1 then 1 / aspectRatio0 else aspectRatio0
  let mn := jsRound resolution
  let mx := jsRound (resolution * aspectRatio)
  if cfg.canvasH < cfg.canvasW then (mx, mn) else (mn, mx)

/-- Source `initFramebuffers()`: recompute both resolutions, resize the dye and
velocity double buffers (fresh zero storage, no copy) and recreate
divergence, curl and pressure from scratch. -/
def initFramebuffers (cfg : Config) (s : SimState) : SimState :=
  let simRes := getResolution cfg cfg.SIM_RESOLUTION
  let dyeRes := getResolution cfg cfg.DYE_RESOLUTION
  { velocity := resizeDoubleFBO Vec2 s.velocity simRes.1 simRes.2 ⟨0, 0⟩
    dye := resizeDoubleFBO Vec3 s.dye dyeRes.1 dyeRes.2 ⟨0, 0, 0⟩
    divergence := createFBO ℚ simRes.1 simRes.2 0
    curl := createFBO ℚ simRes.1 simRes.2 0
    pressure := createDoubleFBO ℚ simRes.1 simRes.2 0 }

/-! Section: Pointer input, the splat queue, and the update loop -/

/-- One tracked pointer (the fields `applyInputs` and `splatPointer` read). -/
structure Pointer where
  moved : Bool
  texcoordX : ℚ
  texcoordY : ℚ
  deltaX : ℚ
  deltaY : ℚ
  color : Vec3
deriving DecidableEq

/-- The arguments of one `splat(x, y, dx, dy, color)` invocation. -/
structure SplatCall where
  px : ℚ
  py : ℚ
  dx : ℚ
  dy : ℚ
  color : Vec3
deriving DecidableEq

def applyCall (expF : ℚ → ℚ) (cfg : Config) (a : SplatCall) (s : SimState) :
    SimState :=
  splat expF cfg a.px a.py a.dx a.dy a.color s

/-- Source `multipleSplats(amount)`: `amount` splats whose randomly generated
arguments are supplied by the stream `args`. -/
def multipleSplatsGo (expF : ℚ → ℚ) (cfg : Config) (args : ℕ → SplatCall) :
    ℕ → ℕ → SimState → SimState × List SplatCall
  | _, 0, s => (s, [])
  | i, Nat.succ k, s =>
      let a := args i
      let r := multipleSplatsGo expF cfg args (i + 1) k (applyCall expF cfg a s)
      (r.1, a :: r.2)

def multipleSplats (expF : ℚ → ℚ) (cfg : Config) (args : ℕ → SplatCall)
    (amount : ℕ) (s : SimState) : SimState × List SplatCall :=
  multipleSplatsGo expF cfg args 0 amount s

/-- The splat arguments `splatPointer` derives from a pointer:
deltas scaled by `config.SPLAT_FORCE`. -/
def pointerCall (cfg : Config) (p : Pointer) : SplatCall :=
  ⟨p.texcoordX, p.texcoordY, p.deltaX * cfg.SPLAT_FORCE,
    p.deltaY * cfg.SPLAT_FORCE, p.color⟩

def splatPointer (expF : ℚ → ℚ) (cfg : Config) (p : Pointer) (s : SimState) :
    SimState :=
  applyCall expF cfg (pointerCall cfg p) s

/-- The `pointers.forEach` sweep of `applyInputs`: each pointer whose
`moved` flag is set gets exactly one splat from its current deltas and
its flag cleared. -/
def pointerSweep (expF : ℚ → ℚ) (cfg : Config) :
    List Pointer → SimState → SimState × List Pointer × List SplatCall
  | [], s => (s, [], [])
  | p :: ps, s =>
      if p.moved then
        let r := pointerSweep expF cfg ps (splatPointer expF cfg p s)
        (r.1, { p with moved := false } :: r.2.1, pointerCall cfg p :: r.2.2)
      else
        let r := pointerSweep expF cfg ps s
        (r.1, p :: r.2.1, r.2.2)

/-- Source `applyInputs()`: if the splat stack is non-empty, `pop()` removes its
most recently pushed entry and runs `multipleSplats` on it; then every
moved pointer produces one splat.  Returns the new simulation state, the
remaining stack, the updated pointers, and the splat invocations made. -/
def applyInputs (expF : ℚ → ℚ) (cfg : Config) (args : ℕ → SplatCall)
    (s : SimState) (splatStack : List ℕ) (pointers : List Pointer) :
    SimState × List ℕ × List Pointer × List SplatCall :=
  let popped : SimState × List ℕ × List SplatCall :=
    match splatStack.getLast? with
    | none => (s, splatStack, [])
    | some amt =>
        let r := multipleSplats expF cfg args amt s
        (r.1, splatStack.dropLast, r.2)
  let sw := pointerSweep expF cfg pointers popped.1
  (sw.1, popped.2.1, sw.2.1, popped.2.2 ++ sw.2.2)

/-- Truncated (toward zero) integer part, as JavaScript `%` uses. -/
def truncQ (q : ℚ) : ℤ := if 0 ≤ q then ⌊q⌋ else ⌈q⌉

/-- The JavaScript remainder operator on rationals. -/
def jsMod (a b : ℚ) : ℚ := a - b * truncQ (a / b)

/-- Source `wrap(value, min, max)` from the source. -/
def wrap (value mn mx : ℚ) : ℚ :=
  let range := mx - mn
  if range = 0 then mn else jsMod (value - mn) range + mn

/-- Source `updateColors(dt)`: advance the color timer and, when it crosses 1,
regenerate every pointer color (the random colors are the stream
`newColor`).  Touches only pointers, never simulation fields. -/
def updateColors (cfg : Config) (newColor : ℕ → Vec3) (dt timer : ℚ)
    (ps : List Pointer) : List Pointer × ℚ :=
  if cfg.COLORFUL then
    let t2 := timer + dt * cfg.COLOR_UPDATE_SPEED
    if 1 ≤ t2 then
      ((ps.enum).map (fun pr => { pr.2 with color := newColor pr.1 }), wrap t2 0 1)
    else (ps, t2)
  else (ps, timer)

/-- Everything `update()` touches besides the configuration. -/
structure World where
  sim : SimState
  splatStack : List ℕ
  pointers : List Pointer
  colorTimer : ℚ
  canvasResized : Bool

/-- One animation tick, `update()`: resize check, `updateColors`,
`applyInputs` (unconditionally), then `step(dt)` only when not paused.
Also returns the splat invocations of the tick. -/
def update (expF sq : ℚ → ℚ) (cfg : Config) (args : ℕ → SplatCall)
    (newColor : ℕ → Vec3) (dt : ℚ) (w : World) : World × List SplatCall :=
  let sim0 := if w.canvasResized then initFramebuffers cfg w.sim else w.sim
  let uc := updateColors cfg newColor dt w.colorTimer w.pointers
  let ai := applyInputs expF cfg args sim0 w.splatStack uc.1
  let sim2 := if cfg.PAUSED then ai.1 else (step sq cfg dt ai.1).1
  (⟨sim2, ai.2.1, ai.2.2.1, uc.2, false⟩, ai.2.2.2)

/-! Section: Spec-side comparator definitions

These follow the wording of the specification (not the source) and are
proved equal to the source-side definitions in the claim theorems. -/

/-- The tick pass sequence exactly as the spec states it:
Curl; Vorticity-Confinement + velocity swap; Divergence; Clear/Scale +
pressure swap; N × (Pressure-Relax + pressure swap); Gradient-Subtract +
velocity swap; Advect velocity + swap; Advect dye + swap. -/
def specTickSequence (n : ℕ) : List Ev :=
  [Ev.pass Pass.curl,
   Ev.pass Pass.vorticity, Ev.swapVelocity,
   Ev.pass Pass.divergence,
   Ev.pass Pass.clearPressure, Ev.swapPressure] ++
  (List.replicate n [Ev.pass Pass.pressureRelax, Ev.swapPressure]).flatten ++
  [Ev.pass Pass.gradientSubtract, Ev.swapVelocity,
   Ev.pass Pass.advectVelocity, Ev.swapVelocity,
   Ev.pass Pass.advectDye, Ev.swapDye]

/-- The Divergence pass as the spec words it: central difference
`(1/2) * ((R.x - L.x) + (T.y - B.y))`, with an out-of-bounds neighbour
replaced by the negated corresponding component of the center velocity
(identified by the cell index, not by uv arithmetic; no wrap-around). -/
def divergenceSpecCell (v : Grid Vec2) (x y : ℕ) : Vec2 → ℚ := fun C =>
  let L := if x = 0 then -C.x else (v.data (x - 1) y).x
  let R := if x = v.width - 1 then -C.x else (v.data (x + 1) y).x
  let T := if y = v.height - 1 then -C.y else (v.data x (y + 1)).y
  let B := if y = 0 then -C.y else (v.data x (y - 1)).y
  (1/2) * ((R - L) + (T - B))

/-- Spec-side: the gradient of the curl magnitude by central differences
(`∇|curl|`, with the 0.5 factor of the stencil). -/
def gradCurlMag (c : Grid ℚ) (x y : ℕ) : Vec2 :=
  ⟨0.5 * (|c.sampleI ((x : ℤ) + 1) (y : ℤ)| - |c.sampleI ((x : ℤ) - 1) (y : ℤ)|),
   0.5 * (|c.sampleI (x : ℤ) ((y : ℤ) + 1)| - |c.sampleI (x : ℤ) ((y : ℤ) - 1)|)⟩

/-- Spec-side: rotation by 90 degrees (clockwise in the grid frame). -/
def rot90cw (a : Vec2) : Vec2 := ⟨a.y, -a.x⟩

/-- Spec-side: normalization as the shader performs it, dividing by
`length + 0.0001` so a zero vector maps to zero rather than being
undefined. -/
def softNormalize (sq : ℚ → ℚ) (a : Vec2) : Vec2 :=
  ⟨a.x / (lengthV sq a.x a.y + 0.0001), a.y / (lengthV sq a.x a.y + 0.0001)⟩

/-- Spec-side: the confinement force — the normalized gradient of the
curl magnitude, rotated 90 degrees, scaled by `curlStrength · curl`. -/
def specConfineForce (sq : ℚ → ℚ) (c : Grid ℚ) (curlStrength : ℚ) (x y : ℕ) : Vec2 :=
  (curlStrength * c.sampleI (x : ℤ) (y : ℤ)) • rot90cw (softNormalize sq (gradCurlMag c x y))

/-! Section: Concrete instances used by counterexamples and witnesses -/

/-- A stand-in for the GLSL `exp` built-in: the constant-one function
(any strictly positive kernel exercises the structure of the passes). -/
def expOne : ℚ → ℚ := fun _ => 1

/-- A stand-in for the GLSL `sqrt` built-in: the constant-zero function
(non-negative everywhere, as the real square root is). -/
def sqZero : ℚ → ℚ := fun _ => 0

def velZero4 : Grid Vec2 := ⟨4, 4, fun _ _ => ⟨0, 0⟩⟩

def dyeOne4 : Grid Vec3 := ⟨4, 4, fun _ _ => ⟨1, 1, 1⟩⟩

def grid2V : Grid Vec2 := ⟨2, 2, fun _ _ => ⟨0, 0⟩⟩

def grid2D : Grid Vec3 := ⟨2, 2, fun _ _ => ⟨0, 0, 0⟩⟩

def grid2S : Grid ℚ := ⟨2, 2, fun _ _ => 0⟩

/-- An all-zero 2×2 simulation state. -/
def sim2 : SimState := ⟨⟨grid2V, grid2V⟩, ⟨grid2D, grid2D⟩, ⟨grid2S, grid2S⟩, grid2S, grid2S⟩

/-- The source defaults of `config` (2×2 canvas), with the pause flag set. -/
def cfgPaused : Config :=
  { SIM_RESOLUTION := 128, DYE_RESOLUTION := 1024, DENSITY_DISSIPATION := 1,
    VELOCITY_DISSIPATION := 1/5, PRESSURE := 4/5, PRESSURE_ITERATIONS := 20,
    CURL := 30, SPLAT_RADIUS := 1/4, SPLAT_FORCE := 6000, COLORFUL := false,
    COLOR_UPDATE_SPEED := 10, PAUSED := true, canvasW := 2, canvasH := 2 }

/-- Source defaults on a 2:1 landscape canvas, not paused. -/
def cfgWide : Config :=
  { SIM_RESOLUTION := 128, DYE_RESOLUTION := 1024, DENSITY_DISSIPATION := 1,
    VELOCITY_DISSIPATION := 1/5, PRESSURE := 4/5, PRESSURE_ITERATIONS := 20,
    CURL := 30, SPLAT_RADIUS := 1/4, SPLAT_FORCE := 6000, COLORFUL := false,
    COLOR_UPDATE_SPEED := 10, PAUSED := false, canvasW := 2, canvasH := 1 }

/-- A pointer that moved since the last tick. -/
def ptrMoved : Pointer := ⟨true, 1/2, 1/2, 1/100, 0, ⟨1, 0, 0⟩⟩

/-- A paused world with one pending pointer impulse. -/
def worldPaused : World := ⟨sim2, [], [ptrMoved], 0, false⟩

/-- A paused world with no pending input at all. -/
def worldNoInput : World := ⟨sim2, [], [], 0, false⟩

/-- A fixed stream of random-splat arguments. -/
def argsDefault : ℕ → SplatCall := fun _ => ⟨1/2, 1/2, 3, 4, ⟨1, 1, 0⟩⟩

/-- A fixed stream of regenerated pointer colors. -/
def colorsDefault : ℕ → Vec3 := fun _ => ⟨0, 0, 0⟩

/-! Section: Theorems -/

theorem vec2_add_def (a b : Vec2) : a + b = ⟨a.x + b.x, a.y + b.y⟩ := rfl
theorem vec2_smul_def (t : ℚ) (a : Vec2) : t • a = ⟨t * a.x, t * a.y⟩ := rfl
theorem vec3_add_def (a b : Vec3) : a + b = ⟨a.r + b.r, a.g + b.g, a.b + b.b⟩ := rfl
theorem vec3_smul_def (t : ℚ) (a : Vec3) : t • a = ⟨t * a.r, t * a.g, t * a.b⟩ := rfl

theorem clampIdx_coe (n x : ℕ) (hx : x < n) : clampIdx n (x : ℤ) = x := by
  unfold clampIdx
  have h1 : min (x : ℤ) ((n : ℤ) - 1) = (x : ℤ) := by omega
  rw [h1]
  omega

theorem Grid.sampleI_coe {α : Type} (gr : Grid α) (x y : ℕ)
    (hx : x < gr.width) (hy : y < gr.height) :
    gr.sampleI (x : ℤ) (y : ℤ) = gr.data x y := by
  unfold Grid.sampleI
  rw [clampIdx_coe _ _ hx, clampIdx_coe _ _ hy]

theorem pressureLoopGo_trace (dv : Grid ℚ) :
    ∀ (n : ℕ) (p : DoubleBuf ℚ) (tr : List Ev),
    (pressureLoopGo dv n p tr).2
      = tr ++ (List.replicate n [Ev.pass Pass.pressureRelax, Ev.swapPressure]).flatten
  | 0, p, tr => by simp [pressureLoopGo]
  | Nat.succ k, p, tr => by
      rw [pressureLoopGo, pressureLoopGo_trace dv k]
      simp [List.replicate_succ]

theorem pressureLoopGo_read (dv : Grid ℚ) :
    ∀ (n : ℕ) (p : DoubleBuf ℚ) (tr : List Ev),
    (pressureLoopGo dv n p tr).1.readBuf = (fun q => jacobiPass dv q)^[n] p.readBuf
  | 0, _, _ => rfl
  | Nat.succ k, p, tr => by
      rw [pressureLoopGo, pressureLoopGo_read dv k, Function.iterate_succ_apply]
      rfl

/-- C1: each unpaused tick, `step` executes exactly the pass sequence
Curl; Vorticity-Confinement + velocity swap; Divergence; Clear/Scale +
pressure swap; N × (Pressure-Relax + pressure swap); Gradient-Subtract +
velocity swap; Advect velocity + swap; Advect dye + swap — nothing else,
in this order. -/
theorem step_pass_sequence (sq : ℚ → ℚ) (cfg : Config) (dt : ℚ) (s : SimState) :
    (step sq cfg dt s).2 = specTickSequence cfg.PRESSURE_ITERATIONS := by
  simp [step, specTickSequence, pressureLoopGo_trace]

/-- C2: the pressure phase of `step` is exactly `N` Jacobi relaxation
iterations (N = the configured iteration count), each one a whole-grid
pass over the grid of the previous iteration (double buffer swapped after
every iteration), seeded by the Clear/Scale pass, against the divergence
of the post-confinement velocity; and each Jacobi cell is
`(p_L + p_R + p_T + p_B - divergence) / 4`. -/
theorem step_pressure_jacobi (sq : ℚ → ℚ) (cfg : Config) (dt : ℚ) (s : SimState) :
    ((step sq cfg dt s).1.pressure.readBuf
      = (fun q => jacobiPass
            (divergencePass (vorticityPass sq s.velocity.readBuf
              (curlPass s.velocity.readBuf) cfg.CURL dt)) q)^[cfg.PRESSURE_ITERATIONS]
          (clearPass cfg.PRESSURE s.pressure.readBuf))
    ∧ ∀ (dv p : Grid ℚ) (x y : ℕ),
        (jacobiPass dv p).data x y
          = (p.sampleI ((x : ℤ) - 1) (y : ℤ) + p.sampleI ((x : ℤ) + 1) (y : ℤ)
              + p.sampleI (x : ℤ) ((y : ℤ) + 1) + p.sampleI (x : ℤ) ((y : ℤ) - 1)
              - dv.sampleI (x : ℤ) (y : ℤ)) / 4 := by
  constructor
  · simp [step, pressureLoopGo_read, DoubleBuf.swap, DoubleBuf.blitWrite]
  · intro dv p x y
    simp only [jacobiPass, jacobiCell]
    ring

theorem cast_lt_add_half (a b : ℕ) : ((a : ℚ) < (b : ℚ) + 1/2) ↔ a ≤ b := by
  constructor
  · intro h
    by_contra hc
    push_neg at hc
    have h2 : ((b : ℚ) + 1) ≤ (a : ℚ) := by exact_mod_cast hc
    linarith
  · intro h
    have h2 : (a : ℚ) ≤ (b : ℚ) := by exact_mod_cast h
    linarith

/-- C3: the Divergence pass computes `0.5·((R.x−L.x)+(T.y−B.y))`, and on
each domain edge the out-of-bounds neighbour sample is the negated
normal component of the center velocity. -/
theorem divergence_free_slip (v : Grid Vec2) (x y : ℕ)
    (hx : x < v.width) (hy : y < v.height) :
    divergenceCell v x y = divergenceSpecCell v x y (v.data x y) := by
  have hw : 0 < v.width := Nat.pos_of_ne_zero (by omega)
  have hh : 0 < v.height := Nat.pos_of_ne_zero (by omega)
  have hwQ : (0 : ℚ) < (v.width : ℚ) := by exact_mod_cast hw
  have hhQ : (0 : ℚ) < (v.height : ℚ) := by exact_mod_cast hh
  have hC : v.sampleI (x : ℤ) (y : ℤ) = v.data x y := v.sampleI_coe x y hx hy
  -- the four uv-space boundary tests are equivalent to index tests
  have hcL : (((x : ℚ) + 1/2) / (v.width : ℚ) - 1 / (v.width : ℚ) < 0) ↔ x = 0 := by
    have e : ((x : ℚ) + 1/2) / (v.width : ℚ) - 1 / (v.width : ℚ)
        = ((x : ℚ) - 1/2) / (v.width : ℚ) := by ring
    rw [e, div_lt_iff₀ hwQ, zero_mul, sub_neg]
    constructor
    · intro h
      have := (cast_lt_add_half x 0).1 (by push_cast; linarith)
      omega
    · intro h
      subst h
      norm_num
  have hcR : (1 < ((x : ℚ) + 1/2) / (v.width : ℚ) + 1 / (v.width : ℚ)) ↔ x = v.width - 1 := by
    have e : ((x : ℚ) + 1/2) / (v.width : ℚ) + 1 / (v.width : ℚ)
        = ((x : ℚ) + 3/2) / (v.width : ℚ) := by ring
    rw [e, lt_div_iff₀ hwQ, one_mul]
    have e2 : ((x : ℚ) + 3/2) = ((x + 1 : ℕ) : ℚ) + 1/2 := by push_cast; ring
    rw [e2, cast_lt_add_half]
    omega
  have hcT : (1 < ((y : ℚ) + 1/2) / (v.height : ℚ) + 1 / (v.height : ℚ)) ↔ y = v.height - 1 := by
    have e : ((y : ℚ) + 1/2) / (v.height : ℚ) + 1 / (v.height : ℚ)
        = ((y : ℚ) + 3/2) / (v.height : ℚ) := by ring
    rw [e, lt_div_iff₀ hhQ, one_mul]
    have e2 : ((y : ℚ) + 3/2) = ((y + 1 : ℕ) : ℚ) + 1/2 := by push_cast; ring
    rw [e2, cast_lt_add_half]
    omega
  have hcB : (((y : ℚ) + 1/2) / (v.height : ℚ) - 1 / (v.height : ℚ) < 0) ↔ y = 0 := by
    have e : ((y : ℚ) + 1/2) / (v.height : ℚ) - 1 / (v.height : ℚ)
        = ((y : ℚ) - 1/2) / (v.height : ℚ) := by ring
    rw [e, div_lt_iff₀ hhQ, zero_mul, sub_neg]
    constructor
    · intro h
      have := (cast_lt_add_half y 0).1 (by push_cast; linarith)
      omega
    · intro h
      subst h
      norm_num
  -- in-range neighbour samples hit the adjacent texels
  have hsL : x ≠ 0 → (v.sampleI ((x : ℤ) - 1) (y : ℤ)) = v.data (x - 1) y := by
    intro h0
    have e : ((x : ℤ) - 1) = ((x - 1 : ℕ) : ℤ) := by omega
    rw [e]
    exact v.sampleI_coe (x - 1) y (by omega) hy
  have hsR : x ≠ v.width - 1 → (v.sampleI ((x : ℤ) + 1) (y : ℤ)) = v.data (x + 1) y := by
    intro h0
    have e : ((x : ℤ) + 1) = ((x + 1 : ℕ) : ℤ) := by omega
    rw [e]
    exact v.sampleI_coe (x + 1) y (by omega) hy
  have hsT : y ≠ v.height - 1 → (v.sampleI (x : ℤ) ((y : ℤ) + 1)) = v.data x (y + 1) := by
    intro h0
    have e : ((y : ℤ) + 1) = ((y + 1 : ℕ) : ℤ) := by omega
    rw [e]
    exact v.sampleI_coe x (y + 1) hx (by omega)
  have hsB : y ≠ 0 → (v.sampleI (x : ℤ) ((y : ℤ) - 1)) = v.data x (y - 1) := by
    intro h0
    have e : ((y : ℤ) - 1) = ((y - 1 : ℕ) : ℤ) := by omega
    rw [e]
    exact v.sampleI_coe x (y - 1) hx (by omega)
  simp only [divergenceCell, divergenceSpecCell, hC]
  have hL : (if ((x : ℚ) + 1/2) / (v.width : ℚ) - 1 / (v.width : ℚ) < 0
        then -(v.data x y).x else (v.sampleI ((x : ℤ) - 1) (y : ℤ)).x)
      = (if x = 0 then -(v.data x y).x else (v.data (x - 1) y).x) := by
    by_cases h0 : x = 0
    · rw [if_pos (hcL.2 h0), if_pos h0]
    · rw [if_neg (fun hc => h0 (hcL.1 hc)), if_neg h0, hsL h0]
  have hR : (if 1 < ((x : ℚ) + 1/2) / (v.width : ℚ) + 1 / (v.width : ℚ)
        then -(v.data x y).x else (v.sampleI ((x : ℤ) + 1) (y : ℤ)).x)
      = (if x = v.width - 1 then -(v.data x y).x else (v.data (x + 1) y).x) := by
    by_cases h0 : x = v.width - 1
    · rw [if_pos (hcR.2 h0), if_pos h0]
    · rw [if_neg (fun hc => h0 (hcR.1 hc)), if_neg h0, hsR h0]
  have hT : (if 1 < ((y : ℚ) + 1/2) / (v.height : ℚ) + 1 / (v.height : ℚ)
        then -(v.data x y).y else (v.sampleI (x : ℤ) ((y : ℤ) + 1)).y)
      = (if y = v.height - 1 then -(v.data x y).y else (v.data x (y + 1)).y) := by
    by_cases h0 : y = v.height - 1
    · rw [if_pos (hcT.2 h0), if_pos h0]
    · rw [if_neg (fun hc => h0 (hcT.1 hc)), if_neg h0, hsT h0]
  have hB : (if ((y : ℚ) + 1/2) / (v.height : ℚ) - 1 / (v.height : ℚ) < 0
        then -(v.data x y).y else (v.sampleI (x : ℤ) ((y : ℤ) - 1)).y)
      = (if y = 0 then -(v.data x y).y else (v.data x (y - 1)).y) := by
    by_cases h0 : y = 0
    · rw [if_pos (hcB.2 h0), if_pos h0]
    · rw [if_neg (fun hc => h0 (hcB.1 hc)), if_neg h0, hsB h0]
  rw [hL, hR, hT, hB]
  ring

/-- Witness for C3 at a concrete interior/edge cell of a concrete grid. -/
theorem divergence_free_slip_witness :
    (0 : ℕ) < 2 ∧ (1 : ℕ) < 2 ∧
    divergenceCell ⟨2, 2, fun i j => ⟨(i : ℚ), (j : ℚ)⟩⟩ 0 1
      = divergenceSpecCell ⟨2, 2, fun i j => ⟨(i : ℚ), (j : ℚ)⟩⟩ 0 1 ⟨0, 1⟩ :=
  ⟨by decide, by decide,
    divergence_free_slip ⟨2, 2, fun i j => ⟨(i : ℚ), (j : ℚ)⟩⟩ 0 1
      (by decide) (by decide)⟩

theorem Vec2.ext2 (a b : Vec2) (hx : a.x = b.x) (hy : a.y = b.y) : a = b := by
  cases a
  cases b
  simp_all

theorem Vec3.ext3 (a b : Vec3) (hr : a.r = b.r) (hg : a.g = b.g) (hb : a.b = b.b) :
    a = b := by
  cases a
  cases b
  simp_all

/-- C4 (failing input): the Advect pass multiplies the resampled value
by the raw `dissipation` parameter, not by the documented decay factor
`1/(1 + dissipation·dt)` (nor any factor that tends to 1 as the decay
parameter tends to 0).  With `dissipation = 0` the pass zeroes an
all-ones dye field in one tick, where the claimed factor is exactly 1
(no decay); with the default velocity dissipation 0.2 the factor is 0.2
instead of `1/(1 + 0.2·dt) ≈ 0.9967`. -/
theorem advect_scales_by_raw_dissipation :
    advectDyeCell velZero4 dyeOne4 (1/60) 0 1 1 = ⟨0, 0, 0⟩ ∧
    advectDyeCell velZero4 dyeOne4 (1/60) (1/5) 1 1 = ⟨1/5, 1/5, 1/5⟩ ∧
    (1 : ℚ) / (1 + 0 * (1/60)) = 1 ∧
    ¬ ((1 : ℚ)/5 = 1 / (1 + (1/5) * (1/60))) := by
  refine ⟨?_, ?_, by norm_num, by norm_num⟩
  · apply Vec3.ext3 <;>
      simp only [advectDyeCell, advectCoord, bilerpV, bilerpD, mixV3, mixV2, mixQ,
        Grid.sampleI, velZero4, dyeOne4, vec3_smul_def] <;>
      ring
  · apply Vec3.ext3 <;>
      simp only [advectDyeCell, advectCoord, bilerpV, bilerpD, mixV3, mixV2, mixQ,
        Grid.sampleI, velZero4, dyeOne4, vec3_smul_def] <;>
      ring

/-- C5: a splat at `p` with force `(dx, dy)` and color `c` adds to every
velocity cell the impulse `exp(-‖(x-p)·aspectCorrected‖²/radius)·(dx,dy)`
(horizontal offset rescaled by the canvas aspect ratio) and adds the
same Gaussian weighted by `c` to the dye cell; the radius is the
aspect-corrected `SPLAT_RADIUS/100`, and the Gaussian argument equals
the squared pixel-space distance scaled by `1/(canvasH² · radius)`, so
its level sets are circles for every canvas shape. -/
theorem splat_gaussian_impulse (expF : ℚ → ℚ) (cfg : Config) (px py dx dy : ℚ)
    (color : Vec3) (s : SimState) (i j : ℕ) (hH : cfg.canvasH ≠ 0) :
    ((splat expF cfg px py dx dy color s).velocity.readBuf.data i j
      = s.velocity.readBuf.data i j
        + splatGauss expF (cfg.canvasW / cfg.canvasH) px py
            (correctRadius (cfg.canvasW / cfg.canvasH) (cfg.SPLAT_RADIUS / 100))
            (((i : ℚ) + 1/2) / (s.velocity.readBuf.width : ℚ))
            (((j : ℚ) + 1/2) / (s.velocity.readBuf.height : ℚ))
          • (⟨dx, dy⟩ : Vec2))
    ∧ ((splat expF cfg px py dx dy color s).dye.readBuf.data i j
      = s.dye.readBuf.data i j
        + splatGauss expF (cfg.canvasW / cfg.canvasH) px py
            (correctRadius (cfg.canvasW / cfg.canvasH) (cfg.SPLAT_RADIUS / 100))
            (((i : ℚ) + 1/2) / (s.dye.readBuf.width : ℚ))
            (((j : ℚ) + 1/2) / (s.dye.readBuf.height : ℚ))
          • color)
    ∧ ∀ ux uy radius : ℚ,
        splatGauss expF (cfg.canvasW / cfg.canvasH) px py radius ux uy
          = expF (-((((ux - px) * cfg.canvasW) ^ 2 + ((uy - py) * cfg.canvasH) ^ 2)
                      / cfg.canvasH ^ 2) / radius) := by
  refine ⟨rfl, rfl, ?_⟩
  intro ux uy radius
  have e : ((ux - px) * (cfg.canvasW / cfg.canvasH)) * ((ux - px) * (cfg.canvasW / cfg.canvasH))
        + (uy - py) * (uy - py)
      = (((ux - px) * cfg.canvasW) ^ 2 + ((uy - py) * cfg.canvasH) ^ 2) / cfg.canvasH ^ 2 := by
    field_simp
    ring
  simp only [splatGauss]
  rw [e]

/-- Witness for C5 on the source-default configuration over a 2:1
canvas, with a concrete kernel. -/
theorem splat_gaussian_impulse_witness :
    (splat expOne cfgWide 0 0 1 2 ⟨1, 0, 0⟩ sim2).velocity.readBuf.data 0 0
      = sim2.velocity.readBuf.data 0 0
        + splatGauss expOne (cfgWide.canvasW / cfgWide.canvasH) 0 0
            (correctRadius (cfgWide.canvasW / cfgWide.canvasH) (cfgWide.SPLAT_RADIUS / 100))
            (((0 : ℚ) + 1/2) / (sim2.velocity.readBuf.width : ℚ))
            (((0 : ℚ) + 1/2) / (sim2.velocity.readBuf.height : ℚ))
          • (⟨1, 2⟩ : Vec2) :=
  (splat_gaussian_impulse expOne cfgWide 0 0 1 2 ⟨1, 0, 0⟩ sim2 0 0 (by norm_num [cfgWide])).1

/-- C6: the Vorticity-Confinement pass outputs
`velocity + dt · (curlStrength · curl) · rot90(normalize(∇|curl|))`,
where the normalization is the total one of the shader (divide by
`length + 0.0001`); with a zero confinement strength the velocity passes
through unchanged. -/
theorem vorticity_confinement_formula (sq : ℚ → ℚ) (v : Grid Vec2) (c : Grid ℚ)
    (curlStrength dt : ℚ) (x y : ℕ) :
    vorticityCell sq v c curlStrength dt x y
      = v.sampleI (x : ℤ) (y : ℤ) + dt • specConfineForce sq c curlStrength x y
    ∧ vorticityCell sq v c 0 dt x y = v.sampleI (x : ℤ) (y : ℤ) := by
  have hden : vortDenom sq c x y
      = lengthV sq (gradCurlMag c x y).x (gradCurlMag c x y).y + 0.0001 := by
    unfold vortDenom lengthV
    congr 2
    simp only [vortForceRaw, gradCurlMag]
    ring
  constructor
  · apply Vec2.ext2
    · simp only [vorticityCell, specConfineForce, rot90cw, softNormalize,
        vec2_add_def, vec2_smul_def, hden, vortForceRaw, gradCurlMag]
      ring
    · simp only [vorticityCell, specConfineForce, rot90cw, softNormalize,
        vec2_add_def, vec2_smul_def, hden, vortForceRaw, gradCurlMag]
      ring
  · apply Vec2.ext2
    · simp only [vorticityCell]
      ring
    · simp only [vorticityCell]
      ring

theorem pointerSweep_unmoved (expF : ℚ → ℚ) (cfg : Config) :
    ∀ (ps : List Pointer) (s : SimState), (∀ p ∈ ps, p.moved = false) →
      (pointerSweep expF cfg ps s).1 = s
  | [], _, _ => rfl
  | p :: ps, s, h => by
      have hp : p.moved = false := h p (List.mem_cons_self p ps)
      simp only [pointerSweep, hp, Bool.false_eq_true, if_false]
      exact pointerSweep_unmoved expF cfg ps s fun q hq => h q (List.mem_cons_of_mem p hq)

theorem pointerSweep_calls (expF : ℚ → ℚ) (cfg : Config) :
    ∀ (ps : List Pointer) (s : SimState),
      (pointerSweep expF cfg ps s).2.2
        = (ps.filter (fun p => p.moved)).map (pointerCall cfg)
  | [], _ => rfl
  | p :: ps, s => by
      by_cases hp : p.moved <;>
        simp [pointerSweep, hp, List.filter_cons, pointerSweep_calls expF cfg ps]

theorem multipleSplatsGo_length (expF : ℚ → ℚ) (cfg : Config) (args : ℕ → SplatCall) :
    ∀ (k i : ℕ) (s : SimState), ((multipleSplatsGo expF cfg args i k s).2).length = k
  | 0, _, _ => rfl
  | Nat.succ k, i, s => by
      simp [multipleSplatsGo, multipleSplatsGo_length expF cfg args k]

theorem updateColors_unmoved (cfg : Config) (newColor : ℕ → Vec3) (dt timer : ℚ)
    (ps : List Pointer) (h : ∀ p ∈ ps, p.moved = false) :
    ∀ p ∈ (updateColors cfg newColor dt timer ps).1, p.moved = false := by
  unfold updateColors
  by_cases hc : cfg.COLORFUL <;> simp only [hc, if_true, if_false, Bool.false_eq_true]
  · by_cases ht : 1 ≤ timer + dt * cfg.COLOR_UPDATE_SPEED <;>
      simp only [ht, if_true, if_false]
    · intro p hp
      obtain ⟨pr, hpr, rfl⟩ := List.mem_map.1 hp
      have h2 : pr.2 ∈ ps := by
        have h3 := List.mem_enum_iff_getElem?.1 hpr
        exact List.getElem?_mem h3
      exact h pr.2 h2
    · exact h
  · exact h

/-- C7 (counterexample): with the pause flag set and one pending pointer
impulse, the tick still mutates the dye field — `update` runs
`applyInputs` (and hence the Splat Operator) unconditionally, suppressing
only `step`.  The claim that a paused tick leaves every simulation field
unchanged is therefore false. -/
theorem paused_tick_still_splats :
    cfgPaused.PAUSED = true ∧
    (update expOne sqZero cfgPaused argsDefault colorsDefault (1/60)
        worldPaused).1.sim.dye.readBuf.data 0 0
      ≠ worldPaused.sim.dye.readBuf.data 0 0 := by
  refine ⟨rfl, ?_⟩
  simp only [update, applyInputs, updateColors, cfgPaused, worldPaused, ptrMoved,
    pointerSweep, splatPointer, applyCall, pointerCall, splat, splatPassD, splatPassV,
    splatGauss, expOne, sim2, grid2D, grid2V, DoubleBuf.swap, DoubleBuf.blitWrite,
    vec3_add_def, vec3_smul_def]
  norm_num [Vec3.mk.injEq]

/-- C7 (amended): the pause flag suppresses only the Step Orchestrator —
`applyInputs` (the Splat Operator) still runs each tick.  During a
paused tick the simulation state is exactly the post-`applyInputs`
state; in particular, when no splat-stack entry is pending, no pointer
has moved, and no resize is pending, every simulation field is left in
its last fully-committed state. -/
theorem paused_tick_suppresses_step_only (expF sq : ℚ → ℚ) (cfg : Config)
    (args : ℕ → SplatCall) (newColor : ℕ → Vec3) (dt : ℚ) (w : World)
    (hp : cfg.PAUSED = true) :
    ((update expF sq cfg args newColor dt w).1.sim
      = (applyInputs expF cfg args
          (if w.canvasResized then initFramebuffers cfg w.sim else w.sim)
          w.splatStack (updateColors cfg newColor dt w.colorTimer w.pointers).1).1)
    ∧ (w.canvasResized = false → w.splatStack = [] →
        (∀ p ∈ w.pointers, p.moved = false) →
        (update expF sq cfg args newColor dt w).1.sim = w.sim) := by
  constructor
  · simp [update, hp]
  · intro hres hstack hmv
    have hcol := updateColors_unmoved cfg newColor dt w.colorTimer w.pointers hmv
    simp only [update, hp, hres, hstack, if_true, Bool.false_eq_true, if_false,
      applyInputs, List.getLast?_nil]
    exact pointerSweep_unmoved expF cfg _ _ hcol

/-- Witness for C7 (amended) on a paused world with no pending input. -/
theorem paused_tick_suppresses_step_only_witness :
    (update expOne sqZero cfgPaused argsDefault colorsDefault (1/60)
        worldNoInput).1.sim = worldNoInput.sim :=
  (paused_tick_suppresses_step_only expOne sqZero cfgPaused argsDefault colorsDefault
      (1/60) worldNoInput rfl).2 rfl rfl (by simp [worldNoInput])

/-- C8 (counterexample): with two pending splat-stack entries, the
`applyInputs` of a tick pops only the most recent one — the other entry survives
into the next tick, so the pending impulse queue is not fully drained,
and the entry that is processed is the latest, not the first to arrive. -/
theorem splat_stack_entry_deferred :
    (applyInputs expOne cfgPaused argsDefault sim2 [3, 2] []).2.1 = [3] ∧
    ((applyInputs expOne cfgPaused argsDefault sim2 [3, 2] []).2.2.2).length = 2 := by
  constructor
  · simp [applyInputs, pointerSweep]
  · simp [applyInputs, pointerSweep, multipleSplats, multipleSplatsGo_length]

/-- C8 (amended): each tick, `applyInputs` pops at most one splat-stack
entry — the most recently pushed — leaving the rest for later ticks, and
performs `amount` splats for it; then every pointer whose `moved` flag
is set produces exactly one splat, in pointer order, from its latest
(coalesced) deltas. -/
theorem applyInputs_pops_last_entry (expF : ℚ → ℚ) (cfg : Config)
    (args : ℕ → SplatCall) (s : SimState) (stack : List ℕ) (ptrs : List Pointer)
    (amt : ℕ) (hlast : stack.getLast? = some amt) :
    ((applyInputs expF cfg args s stack ptrs).2.1 = stack.dropLast)
    ∧ ((applyInputs expF cfg args s stack ptrs).2.2.2
        = (multipleSplats expF cfg args amt s).2
            ++ (ptrs.filter (fun p => p.moved)).map (pointerCall cfg))
    ∧ ((multipleSplats expF cfg args amt s).2).length = amt := by
  refine ⟨?_, ?_, multipleSplatsGo_length expF cfg args amt 0 s⟩ <;>
    simp [applyInputs, hlast, pointerSweep_calls]

/-- Witness for C8 (amended) on a singleton stack. -/
theorem applyInputs_pops_last_entry_witness :
    ((applyInputs expOne cfgPaused argsDefault sim2 [2] []).2.1 = List.dropLast [2])
    ∧ ((applyInputs expOne cfgPaused argsDefault sim2 [2] []).2.2.2
        = (multipleSplats expOne cfgPaused argsDefault 2 sim2).2
            ++ (([] : List Pointer).filter (fun p => p.moved)).map (pointerCall cfgPaused))
    ∧ ((multipleSplats expOne cfgPaused argsDefault 2 sim2).2).length = 2 :=
  applyInputs_pops_last_entry expOne cfgPaused argsDefault sim2 [2] [] 2 rfl

/-- C9: after a resolution change, `initFramebuffers` leaves every
simulation field — velocity, dye, pressure, divergence, curl — at the
newly derived dimensions with every cell zero, in both slots of each
double buffer, and its result does not depend on the old state in any
way (no content migrates). -/
theorem initFramebuffers_resets (cfg : Config) (s : SimState) (x y : ℕ) :
    ((initFramebuffers cfg s).velocity.readBuf.width = (getResolution cfg cfg.SIM_RESOLUTION).1
      ∧ (initFramebuffers cfg s).velocity.readBuf.height = (getResolution cfg cfg.SIM_RESOLUTION).2
      ∧ (initFramebuffers cfg s).dye.readBuf.width = (getResolution cfg cfg.DYE_RESOLUTION).1
      ∧ (initFramebuffers cfg s).dye.readBuf.height = (getResolution cfg cfg.DYE_RESOLUTION).2
      ∧ (initFramebuffers cfg s).pressure.readBuf.width = (getResolution cfg cfg.SIM_RESOLUTION).1
      ∧ (initFramebuffers cfg s).pressure.readBuf.height = (getResolution cfg cfg.SIM_RESOLUTION).2
      ∧ (initFramebuffers cfg s).divergence.width = (getResolution cfg cfg.SIM_RESOLUTION).1
      ∧ (initFramebuffers cfg s).divergence.height = (getResolution cfg cfg.SIM_RESOLUTION).2
      ∧ (initFramebuffers cfg s).curl.width = (getResolution cfg cfg.SIM_RESOLUTION).1
      ∧ (initFramebuffers cfg s).curl.height = (getResolution cfg cfg.SIM_RESOLUTION).2)
    ∧ ((initFramebuffers cfg s).velocity.readBuf.data x y = ⟨0, 0⟩
      ∧ (initFramebuffers cfg s).velocity.writeBuf.data x y = ⟨0, 0⟩
      ∧ (initFramebuffers cfg s).dye.readBuf.data x y = ⟨0, 0, 0⟩
      ∧ (initFramebuffers cfg s).dye.writeBuf.data x y = ⟨0, 0, 0⟩
      ∧ (initFramebuffers cfg s).pressure.readBuf.data x y = 0
      ∧ (initFramebuffers cfg s).pressure.writeBuf.data x y = 0
      ∧ (initFramebuffers cfg s).divergence.data x y = 0
      ∧ (initFramebuffers cfg s).curl.data x y = 0)
    ∧ (∀ s2 : SimState, initFramebuffers cfg s = initFramebuffers cfg s2) :=
  ⟨⟨rfl, rfl, rfl, rfl, rfl, rfl, rfl, rfl, rfl, rfl⟩,
    ⟨rfl, rfl, rfl, rfl, rfl, rfl, rfl, rfl⟩, fun _ => rfl⟩

/-- C10: the normalization denominator of the Vorticity-Confinement
pass, `length(force) + 0.0001`, is strictly positive for every input
(the square root is non-negative), so the pass never divides by zero —
in particular where the gradient of the curl magnitude vanishes. -/
theorem vorticity_denominator_pos (sq : ℚ → ℚ) (c : Grid ℚ) (x y : ℕ)
    (hsq : ∀ t, 0 ≤ sq t) : 0 < vortDenom sq c x y := by
  unfold vortDenom lengthV
  have h := hsq ((vortForceRaw c x y).x * (vortForceRaw c x y).x
    + (vortForceRaw c x y).y * (vortForceRaw c x y).y)
  have h2 : (0 : ℚ) < 0.0001 := by norm_num
  linarith

/-- Witness for C10 with a concrete non-negative square-root stand-in. -/
theorem vorticity_denominator_pos_witness : 0 < vortDenom sqZero grid2S 0 0 :=
  vorticity_denominator_pos sqZero grid2S 0 0 fun _ => le_rfl
